import Mathlib

/-!
# Globe-with-me: a verification development of `script.js`

A shallow embedding of the page script: the globals of `script.js`, the part of
the DOM and of the browser it touches, and each of its functions as a state
transformer on `World`.  JavaScript numbers are abstracted to a linearly
ordered field `α` (instantiated to `ℝ` where a claim is about real arithmetic),
and the `Math` object is a record of the functions the script uses.
-/

set_option autoImplicit false

namespace Globe

/-! ## The `Math` object and the random source -/

/-- The members of the JavaScript `Math` object used by `createStars`
(`Math.PI`, `Math.sin`, `Math.cos`, `Math.acos`). -/
structure JSMath (α : Type) where
  PI : α
  sin : α → α
  cos : α → α
  acos : α → α

/-- Real-number reading of `Math`: on the domain `[-1, 1]` of `Math.acos`
that `createStars` uses, `Real.arccos` is the mathematical arc cosine. -/
noncomputable def JSMath.real : JSMath ℝ :=
  { PI := Real.pi, sin := Real.sin, cos := Real.cos, acos := Real.arccos }

/-- State of `Math.random`: the stream of values it will return and the number
of values already returned. -/
structure Rng (α : Type) where
  draws : Nat → α
  drawn : Nat

/-- One call of `Math.random()`. -/
def Rng.random {α : Type} (g : Rng α) : α × Rng α :=
  (g.draws g.drawn, { g with drawn := g.drawn + 1 })

/-! ## `createStars`, lines 146-155: the sampling loop -/

/-- Line 148: `r = 15 + Math.random() * 100`, as a function of the draw. -/
def starRadius {α : Type} [LinearOrderedField α] (u : α) : α :=
  15 + u * 100

/-- Line 149: `theta = 2 * Math.PI * Math.random()`. -/
def starTheta {α : Type} [LinearOrderedField α] (M : JSMath α) (u1 : α) : α :=
  2 * M.PI * u1

/-- Line 150: `phi = Math.acos(2 * Math.random() - 1)`. -/
def starPhi {α : Type} [LinearOrderedField α] (M : JSMath α) (u2 : α) : α :=
  M.acos (2 * u2 - 1)

/-- Lines 148-153: the coordinates of one star from its three draws. -/
def starPoint {α : Type} [LinearOrderedField α] (M : JSMath α) (u u1 u2 : α) : α × α × α :=
  let r := starRadius u
  let theta := starTheta M u1
  let phi := starPhi M u2
  let x := r * M.sin phi * M.cos theta
  let y := r * M.sin phi * M.sin theta
  let z := r * M.cos phi
  (x, y, z)

/-- Body of the `for` loop, lines 148-154: three calls of `Math.random()` in
source order (radius, theta, phi), then `starVertices.push(x, y, z)`. -/
def starsBody {α : Type} [LinearOrderedField α] (M : JSMath α)
    (s : Array α × Rng α) : Array α × Rng α :=
  let (u, g1) := s.2.random
  let (u1, g2) := g1.random
  let (u2, g3) := g2.random
  let p := starPoint M u u1 u2
  (((s.1.push p.1).push p.2.1).push p.2.2, g3)

/-- The loop `for (let i = 0; i < n; i++) body`: the body never assigns `i`,
so the loop is `n` runs of the body. -/
def starsLoop {α : Type} [LinearOrderedField α] (M : JSMath α) :
    Nat → Array α × Rng α → Array α × Rng α
  | 0, s => s
  | n + 1, s => starsLoop M n (starsBody M s)

/-- Lines 146-155: `starVertices = []` and the loop with its bound `10000`. -/
def sampleStars {α : Type} [LinearOrderedField α] (M : JSMath α) (g : Rng α) :
    Array α × Rng α :=
  starsLoop M 10000 (#[], g)

/-- Item `i` of a flat buffer read with item size 3, as
`Float32BufferAttribute(starVertices, 3)` reads it. -/
def pointAt {α : Type} (vs : Array α) (i : Nat) : Option (α × α × α) :=
  match vs[3 * i]?, vs[3 * i + 1]?, vs[3 * i + 2]? with
  | some x, some y, some z => some (x, y, z)
  | _, _, _ => none

/-! ## The page state -/

/-- A `THREE.Vector3`. -/
structure Vec3 (α : Type) where
  x : α
  y : α
  z : α

/-- The `THREE.PerspectiveCamera` of line 11 with the fields the script sets. -/
structure Camera (α : Type) where
  fov : α
  aspect : α
  near : α
  far : α
  position : Vec3 α

/-- The `THREE.WebGLRenderer` of lines 15-20; `frames` counts the calls of
`renderer.render`. -/
structure Renderer (α : Type) where
  antialias : Bool
  alpha : Bool
  width : α
  height : α
  pixelRatio : α
  frames : Nat

/-- The `THREE.OrbitControls` of lines 102-110. -/
structure Controls (α : Type) where
  enableDamping : Bool
  dampingFactor : α
  rotateSpeed : α
  minDistance : α
  maxDistance : α
  autoRotate : Bool
  autoRotateSpeed : α
  enablePan : Bool

/-- An object added to the scene: the star `THREE.Points` with its position
buffer and item size, a sphere mesh (the globe carries the texture map, the
atmosphere a shader and no map), or a light. -/
inductive SceneObject (α : Type) where
  | points (positions : Array α) (itemSize : Nat)
  | mesh (radius : α) (map : Option String)
  | ambientLight (color : Nat)
  | pointLight (color : Nat) (intensity : α) (position : Vec3 α)

/-- A `gsap.to(camera.position, ...)` request. -/
structure Tween (α : Type) where
  z : α
  duration : α
  ease : String

/-- The two `setTimeout` callbacks of `updateLoadingProgress`. -/
inductive TimerTask where
  | fadeLoading
  | hideLoading
  deriving DecidableEq, Repr

/-- The event listeners registered by `createGlobe`. -/
inductive Listener where
  | resize
  | autoRotateClick
  | zoomInClick
  | zoomOutClick
  deriving DecidableEq, Repr

/-- The globals of `script.js` (lines 1-3), the DOM nodes it writes and the
browser state it reads or schedules on.  `undefined` globals are `none`.  The
elements the script looks up by id or class are taken to exist. -/
structure World (α : Type) where
  scene : Option (List (SceneObject α))
  camera : Option (Camera α)
  renderer : Option (Renderer α)
  globe : Option (SceneObject α)
  controls : Option (Controls α)
  isAutoRotating : Bool
  texturesLoaded : Nat
  canvases : Nat
  loadingText : String
  loadingOpacity : Option String
  loadingDisplay : Option String
  autoRotateLabel : String
  listeners : List Listener
  innerWidth : α
  innerHeight : α
  devicePixelRatio : α
  rng : Rng α
  textureRequests : List String
  timers : List (Nat × TimerTask)
  frameRequests : Nat
  tweens : List (Tween α)
  consoleErrors : List String
  loadFired : Bool

/-- Line 4: `totalTextures`, never assigned after its declaration. -/
def totalTextures : Nat := 1

/-- How a call ends: normally, or by an uncaught exception; either way the
state reached is kept, since JavaScript does not roll assignments back. -/
inductive Completion (σ : Type) where
  | normal (w : σ)
  | throw (error : String) (w : σ)

/-- The state a call leaves behind. -/
def Completion.world {σ : Type} : Completion σ → σ
  | .normal w => w
  | .throw _ w => w

/-- The state of the page when the script has been evaluated and before the
window `load` event: lines 1-4, with the markup's texts and the window's
dimensions as given. -/
def pageLoad {α : Type} (draws : Nat → α) (innerWidth innerHeight devicePixelRatio : α)
    (loadingText autoRotateLabel : String) : World α :=
  { scene := none, camera := none, renderer := none, globe := none, controls := none
    isAutoRotating := true
    texturesLoaded := 0
    canvases := 0
    loadingText := loadingText
    loadingOpacity := none
    loadingDisplay := none
    autoRotateLabel := autoRotateLabel
    listeners := []
    innerWidth := innerWidth
    innerHeight := innerHeight
    devicePixelRatio := devicePixelRatio
    rng := { draws := draws, drawn := 0 }
    textureRequests := []
    timers := []
    frameRequests := 0
    tweens := []
    consoleErrors := []
    loadFired := false }

/-! ## The functions of `script.js` -/

/-- Lines 136-160, `createStars`: the sampling loop, then the buffer is wrapped
with item size 3 in a `THREE.Points` and added to the scene.  `scene.add`
throws when `scene` is still `undefined`. -/
def createStars {α : Type} [LinearOrderedField α] (M : JSMath α) (w : World α) :
    Completion (World α) :=
  let sampled := sampleStars M w.rng
  let starVertices := sampled.1
  let w1 := { w with rng := sampled.2 }
  match w1.scene with
  | none => .throw "TypeError" w1
  | some objs => .normal { w1 with scene := some (objs ++ [.points starVertices 3]) }

/-- A call `createStars(...args)`: the function declares no parameter, so
JavaScript discards whatever arguments the caller passes. -/
def callCreateStars {α : Type} [LinearOrderedField α] (M : JSMath α) (_args : List α)
    (w : World α) : Completion (World α) :=
  createStars M w

/-- The texture requested on line 28. -/
def earthTextureUrl : String :=
  "https://cdn.jsdelivr.net/gh/mrdoob/three.js@r128/examples/textures/planets/earth_atmos_2048.jpg"

/-- Lines 6-43, `init`. -/
def init {α : Type} [LinearOrderedField α] (M : JSMath α) (w : World α) :
    Completion (World α) :=
  let w1 := { w with scene := some [] }
  let w2 := { w1 with
    camera := some { fov := 60, aspect := w1.innerWidth / w1.innerHeight, near := 0.1,
                     far := 1000, position := { x := 0, y := 0, z := 2.5 } } }
  let w3 := { w2 with
    renderer := some { antialias := true, alpha := true, width := w2.innerWidth,
                       height := w2.innerHeight,
                       pixelRatio := min w2.devicePixelRatio 2, frames := 0 }
    canvases := w2.canvases + 1 }
  let w4 := { w3 with textureRequests := w3.textureRequests ++ [earthTextureUrl] }
  createStars M w4

/-- `Math.round`: the nearest integer, halves rounded up. -/
def mathRound (x : ℚ) : Int := ⌊x + 1 / 2⌋

/-- Line 46: the percentage shown by `updateLoadingProgress`. -/
def loadingProgress (texturesLoaded : Nat) : Int :=
  mathRound (((texturesLoaded : ℚ) / (totalTextures : ℚ)) * 100)

/-- Lines 45-56, `updateLoadingProgress`. -/
def updateLoadingProgress {α : Type} (w : World α) : World α :=
  let progress := loadingProgress w.texturesLoaded
  let w1 := { w with loadingText := "Loading... " ++ toString progress ++ "%" }
  if w1.texturesLoaded ≥ totalTextures then
    { w1 with timers := w1.timers ++ [(1000, TimerTask.fadeLoading)] }
  else w1

/-- The callback of the outer `setTimeout`, lines 49-54. -/
def fadeLoading {α : Type} (w : World α) : World α :=
  { w with loadingOpacity := some "0", timers := w.timers ++ [(500, TimerTask.hideLoading)] }

/-- The callback of the inner `setTimeout`, lines 51-53. -/
def hideLoading {α : Type} (w : World α) : World α :=
  { w with loadingDisplay := some "none" }

/-- Lines 174-182, `animate`; `orbit` is what `controls.update()` does to the
camera. -/
def animate {α : Type} (orbit : Controls α → Camera α → Camera α) (w : World α) :
    World α :=
  let w1 := { w with frameRequests := w.frameRequests + 1 }
  let w2 :=
    match w1.controls, w1.camera with
    | some c, some cam => { w1 with camera := some (orbit c cam) }
    | _, _ => w1
  match w2.renderer, w2.scene, w2.camera with
  | some r, some _, some _ => { w2 with renderer := some { r with frames := r.frames + 1 } }
  | _, _, _ => w2

/-- Lines 102-110: the orbit controls as `createGlobe` configures them. -/
def newControls {α : Type} [LinearOrderedField α] (isAutoRotating : Bool) : Controls α :=
  { enableDamping := true
    dampingFactor := 0.05
    rotateSpeed := 0.5
    minDistance := 1.5
    maxDistance := 4
    autoRotate := isAutoRotating
    autoRotateSpeed := 0.5
    enablePan := false }

/-- Lines 58-134, `createGlobe`. -/
def createGlobe {α : Type} [LinearOrderedField α] (orbit : Controls α → Camera α → Camera α)
    (earthMap : String) (w : World α) : Completion (World α) :=
  let globe : SceneObject α := .mesh 1 (some earthMap)
  let w1 := { w with globe := some globe }
  match w1.scene with
  | none => .throw "TypeError" w1
  | some objs =>
    let w2 := { w1 with
      scene := some (objs ++ [globe, .mesh 1.02 none, .ambientLight 0x333333,
                              .pointLight 0xffffff 1.5 { x := 5, y := 3, z := 5 }]) }
    match w2.renderer with
    | none => .throw "TypeError" w2
    | some _ =>
      let w3 := { w2 with controls := some (newControls w2.isAutoRotating) }
      let w4 := { w3 with
        listeners := w3.listeners ++ [Listener.resize, Listener.autoRotateClick,
                                      Listener.zoomInClick, Listener.zoomOutClick] }
      .normal (animate orbit w4)

/-- Lines 29-33: the success callback of the texture load. -/
def onTextureLoad {α : Type} [LinearOrderedField α] (orbit : Controls α → Camera α → Camera α)
    (texture : String) (w : World α) : Completion (World α) :=
  let w1 := { w with texturesLoaded := w.texturesLoaded + 1 }
  createGlobe orbit texture (updateLoadingProgress w1)

/-- Text written by the error callback, line 37. -/
def textureErrorText : String := "Error loading texture. Please refresh."

/-- Lines 35-38: the error callback of the texture load. -/
def onTextureError {α : Type} (w : World α) : World α :=
  { w with consoleErrors := w.consoleErrors ++ ["Error loading texture:"]
           loadingText := textureErrorText }

/-- Lines 162-166, `toggleAutoRotate`. -/
def toggleAutoRotate {α : Type} (w : World α) : Completion (World α) :=
  let w1 := { w with isAutoRotating := !w.isAutoRotating }
  match w1.controls with
  | none => .throw "TypeError" w1
  | some c =>
    let w2 := { w1 with controls := some { c with autoRotate := w1.isAutoRotating } }
    .normal { w2 with
      autoRotateLabel := if w2.isAutoRotating then "Stop Rotation" else "Auto Rotate" }

/-- Lines 168-172, `onWindowResize`. -/
def onWindowResize {α : Type} [LinearOrderedField α] (w : World α) : Completion (World α) :=
  match w.camera with
  | none => .throw "TypeError" w
  | some cam =>
    let w1 := { w with camera := some { cam with aspect := w.innerWidth / w.innerHeight } }
    match w1.renderer with
    | none => .throw "TypeError" w1
    | some r =>
      .normal { w1 with renderer := some { r with width := w1.innerWidth,
                                                  height := w1.innerHeight } }

/-- Line 119: the `z` the zoom-in tween is sent to. -/
def zoomInTarget {α : Type} [LinearOrderedField α] (z : α) (c : Controls α) : α :=
  max (z - 0.5) c.minDistance

/-- Line 126: the `z` the zoom-out tween is sent to. -/
def zoomOutTarget {α : Type} [LinearOrderedField α] (z : α) (c : Controls α) : α :=
  min (z + 0.5) c.maxDistance

/-- Lines 117-123: the click handler of the `zoomIn` button. -/
def zoomIn {α : Type} [LinearOrderedField α] (w : World α) : Completion (World α) :=
  match w.camera, w.controls with
  | some cam, some c =>
    .normal { w with
      tweens := w.tweens ++ [{ z := zoomInTarget cam.position.z c, duration := 0.5,
                               ease := "power2.out" }] }
  | _, _ => .throw "TypeError" w

/-- Lines 124-130: the click handler of the `zoomOut` button. -/
def zoomOut {α : Type} [LinearOrderedField α] (w : World α) : Completion (World α) :=
  match w.camera, w.controls with
  | some cam, some c =>
    .normal { w with
      tweens := w.tweens ++ [{ z := zoomOutTarget cam.position.z c, duration := 0.5,
                               ease := "power2.out" }] }
  | _, _ => .throw "TypeError" w

/-! ## Events -/

/-- What the browser can deliver to the page: the window `load` event (line
185), the outcome of the texture request, clicks on the three buttons, a window
resize to new dimensions, an animation frame, the expiry of the `k`-th pending
timer, and a write of `camera.position.z` by a running tween. -/
inductive Event (α : Type) where
  | load
  | textureLoaded (texture : String)
  | textureError
  | clickAutoRotate
  | clickZoomIn
  | clickZoomOut
  | resize (width height : α)
  | frame
  | timer (k : Nat)
  | tween (z : α)

/-- Delivery of one event: the handler runs when it is registered (a listener,
a pending request, frame or timer); the `load` event is delivered once. -/
def dispatch {α : Type} [LinearOrderedField α] (M : JSMath α)
    (orbit : Controls α → Camera α → Camera α) : Event α → World α → Completion (World α)
  | .load, w =>
    if w.loadFired then .normal w else init M { w with loadFired := true }
  | .textureLoaded texture, w =>
    match w.textureRequests with
    | [] => .normal w
    | _ :: rest => onTextureLoad orbit texture { w with textureRequests := rest }
  | .textureError, w =>
    match w.textureRequests with
    | [] => .normal w
    | _ :: rest => .normal (onTextureError { w with textureRequests := rest })
  | .clickAutoRotate, w =>
    if Listener.autoRotateClick ∈ w.listeners then toggleAutoRotate w else .normal w
  | .clickZoomIn, w =>
    if Listener.zoomInClick ∈ w.listeners then zoomIn w else .normal w
  | .clickZoomOut, w =>
    if Listener.zoomOutClick ∈ w.listeners then zoomOut w else .normal w
  | .resize width height, w =>
    let w1 := { w with innerWidth := width, innerHeight := height }
    if Listener.resize ∈ w1.listeners then onWindowResize w1 else .normal w1
  | .frame, w =>
    if 0 < w.frameRequests then
      .normal (animate orbit { w with frameRequests := w.frameRequests - 1 })
    else .normal w
  | .timer k, w =>
    match w.timers[k]? with
    | none => .normal w
    | some (_, TimerTask.fadeLoading) =>
      .normal (fadeLoading { w with timers := w.timers.eraseIdx k })
    | some (_, TimerTask.hideLoading) =>
      .normal (hideLoading { w with timers := w.timers.eraseIdx k })
  | .tween z, w =>
    match w.tweens, w.camera with
    | _ :: _, some cam =>
      .normal { w with camera := some { cam with position := { cam.position with z := z } } }
    | _, _ => .normal w

/-- The page after one event. -/
def step {α : Type} [LinearOrderedField α] (M : JSMath α)
    (orbit : Controls α → Camera α → Camera α) (e : Event α) (w : World α) : World α :=
  (dispatch M orbit e w).world

/-- The page after a sequence of events. -/
def run {α : Type} [LinearOrderedField α] (M : JSMath α)
    (orbit : Controls α → Camera α → Camera α) (es : List (Event α)) (w : World α) :
    World α :=
  es.foldl (fun w e => step M orbit e w) w

/-- The states the page can be in: the state at page load, followed by any
events. -/
inductive Reachable {α : Type} [LinearOrderedField α] (M : JSMath α)
    (orbit : Controls α → Camera α → Camera α) : World α → Prop where
  | start (draws : Nat → α) (innerWidth innerHeight devicePixelRatio : α)
      (loadingText autoRotateLabel : String) :
      Reachable M orbit
        (pageLoad draws innerWidth innerHeight devicePixelRatio loadingText autoRotateLabel)
  | next (e : Event α) (w : World α) :
      Reachable M orbit w → Reachable M orbit (step M orbit e w)

/-- The position buffers of the star sets in the scene. -/
def starSets {α : Type} (w : World α) : List (Array α) :=
  (w.scene.getD []).filterMap fun o =>
    match o with
    | .points positions _ => some positions
    | _ => none

/-! ## Predicates on page states -/

/-- What holds in every state the page can reach. -/
structure PageInv {α : Type} [LinearOrderedField α] (w : World α) : Prop where
  beforeLoad : w.loadFired = false →
    w.textureRequests = [] ∧ w.listeners = [] ∧ w.controls = none ∧ w.globe = none ∧
      w.frameRequests = 0 ∧ w.texturesLoaded = 0 ∧ w.timers = [] ∧ w.tweens = []
  pending : w.textureRequests ≠ [] →
    w.textureRequests.length = 1 ∧ w.texturesLoaded = 0 ∧ w.globe = none ∧
      w.controls = none ∧ w.frameRequests = 0 ∧ w.listeners = [] ∧
      (∃ objs, w.scene = some objs) ∧ (∃ r, w.renderer = some r) ∧
      (∃ cam, w.camera = some cam)
  registered : w.listeners ≠ [] → ∃ c, w.controls = some c
  controlsOk : ∀ c, w.controls = some c →
    c.autoRotate = w.isAutoRotating ∧ c.minDistance = 1.5 ∧ c.maxDistance = 4

/-- State `v` has the star sets, the random source and the `load` flag of
state `w`. -/
def StarsKept {α : Type} (w v : World α) : Prop :=
  starSets v = starSets w ∧ v.rng = w.rng ∧ v.loadFired = w.loadFired

/-! ## A concrete page -/

/-- A `Math` over the rationals whose functions are constant, to run the model
on. -/
def exampleMath : JSMath ℚ :=
  { PI := 3, sin := fun _ => 0, cos := fun _ => 1, acos := fun _ => 0 }

/-- A `controls.update()` that leaves the camera where it is. -/
def exampleOrbit : Controls ℚ → Camera ℚ → Camera ℚ :=
  fun _ cam => cam

/-- A page of 800 by 600 pixels at load time, every draw being `0`. -/
def examplePage : World ℚ :=
  pageLoad (fun _ => 0) 800 600 1 "Loading..." "Stop Rotation"

/-- The example page after the `load` event. -/
def exampleInitialised : World ℚ :=
  step exampleMath exampleOrbit .load examplePage

/-- The example page after the `load` event and a successful texture load. -/
def exampleLoaded : World ℚ :=
  step exampleMath exampleOrbit (.textureLoaded "earth") exampleInitialised

/-! ## Lemmas on the sampling loop -/

theorem starsBody_size {α : Type} [LinearOrderedField α] (M : JSMath α)
    (s : Array α × Rng α) : (starsBody M s).1.size = s.1.size + 3 := by
  simp [starsBody]

theorem starsBody_rng {α : Type} [LinearOrderedField α] (M : JSMath α)
    (s : Array α × Rng α) :
    (starsBody M s).2 = { s.2 with drawn := s.2.drawn + 3 } := by
  simp [starsBody, Rng.random]

theorem starsLoop_size {α : Type} [LinearOrderedField α] (M : JSMath α) (n : Nat) :
    ∀ s : Array α × Rng α, (starsLoop M n s).1.size = s.1.size + 3 * n := by
  induction n with
  | zero => intro s; simp [starsLoop]
  | succ n ih =>
    intro s
    rw [starsLoop, ih, starsBody_size]
    omega

theorem starsLoop_rng {α : Type} [LinearOrderedField α] (M : JSMath α) (n : Nat) :
    ∀ s : Array α × Rng α,
      (starsLoop M n s).2 = { s.2 with drawn := s.2.drawn + 3 * n } := by
  induction n with
  | zero => intro s; simp [starsLoop]
  | succ n ih =>
    intro s
    rw [starsLoop, ih, starsBody_rng]
    simp only [Rng.mk.injEq, true_and]
    omega

theorem starsBody_keeps {α : Type} [LinearOrderedField α] (M : JSMath α)
    (s : Array α × Rng α) (k : Nat) (hk : k < s.1.size) :
    (starsBody M s).1[k]? = s.1[k]? := by
  simp only [starsBody, Array.getElem?_push, Array.size_push]
  rw [if_neg (by omega), if_neg (by omega), if_neg (by omega)]

theorem starsBody_new {α : Type} [LinearOrderedField α] (M : JSMath α)
    (s : Array α × Rng α) :
    (starsBody M s).1[s.1.size]? =
        some (starPoint M (s.2.draws s.2.drawn) (s.2.draws (s.2.drawn + 1))
          (s.2.draws (s.2.drawn + 2))).1 ∧
      (starsBody M s).1[s.1.size + 1]? =
        some (starPoint M (s.2.draws s.2.drawn) (s.2.draws (s.2.drawn + 1))
          (s.2.draws (s.2.drawn + 2))).2.1 ∧
      (starsBody M s).1[s.1.size + 2]? =
        some (starPoint M (s.2.draws s.2.drawn) (s.2.draws (s.2.drawn + 1))
          (s.2.draws (s.2.drawn + 2))).2.2 := by
  simp [starsBody, Rng.random, Array.getElem?_push]
  intro h
  omega

theorem starsLoop_keeps {α : Type} [LinearOrderedField α] (M : JSMath α) (n : Nat) :
    ∀ (s : Array α × Rng α) (k : Nat), k < s.1.size →
      (starsLoop M n s).1[k]? = s.1[k]? := by
  induction n with
  | zero => intro s k _; simp [starsLoop]
  | succ n ih =>
    intro s k hk
    rw [starsLoop, ih _ _ (by rw [starsBody_size]; omega), starsBody_keeps M s k hk]

theorem starsBody_draws {α : Type} [LinearOrderedField α] (M : JSMath α)
    (s : Array α × Rng α) : (starsBody M s).2.draws = s.2.draws := by
  rw [starsBody_rng]

/-- Star `i` of the loop sits at offsets `3i`, `3i+1`, `3i+2` past the buffer's
initial length and is computed from draws `3i`, `3i+1`, `3i+2` past the
initial position of the random source. -/
theorem starsLoop_getElem? {α : Type} [LinearOrderedField α] (M : JSMath α) (n : Nat) :
    ∀ (s : Array α × Rng α) (i : Nat), i < n →
      (starsLoop M n s).1[s.1.size + 3 * i]? =
          some (starPoint M (s.2.draws (s.2.drawn + 3 * i))
            (s.2.draws (s.2.drawn + 3 * i + 1)) (s.2.draws (s.2.drawn + 3 * i + 2))).1 ∧
        (starsLoop M n s).1[s.1.size + 3 * i + 1]? =
          some (starPoint M (s.2.draws (s.2.drawn + 3 * i))
            (s.2.draws (s.2.drawn + 3 * i + 1)) (s.2.draws (s.2.drawn + 3 * i + 2))).2.1 ∧
        (starsLoop M n s).1[s.1.size + 3 * i + 2]? =
          some (starPoint M (s.2.draws (s.2.drawn + 3 * i))
            (s.2.draws (s.2.drawn + 3 * i + 1)) (s.2.draws (s.2.drawn + 3 * i + 2))).2.2 := by
  induction n with
  | zero => intro s i hi; omega
  | succ n ih =>
    intro s i hi
    rw [starsLoop]
    cases i with
    | zero =>
      have hb := starsBody_new M s
      have hsz := starsBody_size M s
      simp only [Nat.mul_zero, Nat.add_zero]
      refine ⟨?_, ?_, ?_⟩
      · rw [starsLoop_keeps M n _ _ (by omega)]; exact hb.1
      · rw [starsLoop_keeps M n _ _ (by omega)]; exact hb.2.1
      · rw [starsLoop_keeps M n _ _ (by omega)]; exact hb.2.2
    | succ j =>
      have h := ih (starsBody M s) j (by omega)
      rw [starsBody_size, starsBody_draws, starsBody_rng] at h
      have e1 : s.1.size + 3 + 3 * j = s.1.size + 3 * (j + 1) := by omega
      have e2 : s.2.drawn + 3 + 3 * j = s.2.drawn + 3 * (j + 1) := by omega
      simp only [e1, e2] at h
      exact h

/-- The buffer built by `n` runs of the loop from the empty buffer, read with
item size 3. -/
theorem starsLoop_pointAt {α : Type} [LinearOrderedField α] (M : JSMath α) (n : Nat)
    (g : Rng α) (i : Nat) (hi : i < n) :
    pointAt (starsLoop M n (#[], g)).1 i =
      some (starPoint M (g.draws (g.drawn + 3 * i)) (g.draws (g.drawn + 3 * i + 1))
        (g.draws (g.drawn + 3 * i + 2))) := by
  have h := starsLoop_getElem? M n (#[], g) i hi
  simp only [Array.size_empty, Nat.zero_add] at h
  simp only [pointAt, h.1, h.2.1, h.2.2]

theorem sampleStars_pointAt {α : Type} [LinearOrderedField α] (M : JSMath α)
    (g : Rng α) (i : Nat) (hi : i < 10000) :
    pointAt (sampleStars M g).1 i =
      some (starPoint M (g.draws (g.drawn + 3 * i)) (g.draws (g.drawn + 3 * i + 1))
        (g.draws (g.drawn + 3 * i + 2))) :=
  starsLoop_pointAt M 10000 g i hi

theorem sampleStars_size {α : Type} [LinearOrderedField α] (M : JSMath α) (g : Rng α) :
    (sampleStars M g).1.size = 30000 :=
  (starsLoop_size M 10000 (#[], g)).trans (by simp)

theorem sampleStars_rng {α : Type} [LinearOrderedField α] (M : JSMath α) (g : Rng α) :
    (sampleStars M g).2 = { g with drawn := g.drawn + 30000 } :=
  starsLoop_rng M 10000 (#[], g)

theorem starsBody_fst {α : Type} [LinearOrderedField α] (M : JSMath α)
    (a : Array α) (g : Rng α) :
    (starsBody M (a, g)).1 =
      ((a.push (starPoint M (g.draws g.drawn) (g.draws (g.drawn + 1))
          (g.draws (g.drawn + 2))).1).push
        (starPoint M (g.draws g.drawn) (g.draws (g.drawn + 1)) (g.draws (g.drawn + 2))).2.1).push
        (starPoint M (g.draws g.drawn) (g.draws (g.drawn + 1)) (g.draws (g.drawn + 2))).2.2 := by
  simp [starsBody, Rng.random]

/-- The buffer built by the loop is determined by the draws it consumes. -/
theorem starsLoop_congr {α : Type} [LinearOrderedField α] (M : JSMath α) (n : Nat) :
    ∀ (a : Array α) (g1 g2 : Rng α),
      (∀ k, k < 3 * n → g1.draws (g1.drawn + k) = g2.draws (g2.drawn + k)) →
      (starsLoop M n (a, g1)).1 = (starsLoop M n (a, g2)).1 := by
  induction n with
  | zero => intro a g1 g2 _; rfl
  | succ n ih =>
    intro a g1 g2 h
    have h0 := h 0 (by omega)
    have h1 := h 1 (by omega)
    have h2 := h 2 (by omega)
    simp only [Nat.add_zero] at h0
    have hb : (starsBody M (a, g1)).1 = (starsBody M (a, g2)).1 := by
      rw [starsBody_fst, starsBody_fst, h0, h1, h2]
    have e1 : starsBody M (a, g1) = ((starsBody M (a, g2)).1, (starsBody M (a, g1)).2) := by
      rw [← hb]
    have e2 : starsBody M (a, g2) = ((starsBody M (a, g2)).1, (starsBody M (a, g2)).2) := rfl
    rw [starsLoop, starsLoop, e1, e2]
    apply ih
    intro k hk
    rw [starsBody_rng, starsBody_rng]
    have := h (3 + k) (by omega)
    simpa [Nat.add_assoc] using this

/-! ## The star shell over the reals -/

theorem JSMath.real_sin : JSMath.real.sin = Real.sin := rfl

theorem JSMath.real_cos : JSMath.real.cos = Real.cos := rfl

theorem JSMath.real_acos : JSMath.real.acos = Real.arccos := rfl

theorem JSMath.real_PI : JSMath.real.PI = Real.pi := rfl

theorem starRadius_bounds (u : ℝ) (h0 : 0 ≤ u) (h1 : u < 1) :
    15 ≤ starRadius u ∧ starRadius u < 115 := by
  unfold starRadius
  constructor <;> linarith

/-- The distance of a star from the origin is its radius draw. -/
theorem starPoint_norm (u u1 u2 : ℝ) (h0 : 0 ≤ u) :
    Real.sqrt ((starPoint JSMath.real u u1 u2).1 ^ 2 + (starPoint JSMath.real u u1 u2).2.1 ^ 2
      + (starPoint JSMath.real u u1 u2).2.2 ^ 2) = starRadius u := by
  have hr : (0 : ℝ) ≤ starRadius u := by unfold starRadius; linarith
  have hp := Real.sin_sq_add_cos_sq (starPhi JSMath.real u2)
  have ht := Real.sin_sq_add_cos_sq (starTheta JSMath.real u1)
  have e : (starPoint JSMath.real u u1 u2).1 ^ 2 + (starPoint JSMath.real u u1 u2).2.1 ^ 2
      + (starPoint JSMath.real u u1 u2).2.2 ^ 2 = starRadius u ^ 2 := by
    simp only [starPoint, JSMath.real_sin, JSMath.real_cos]
    have hp2 : Real.cos (starPhi JSMath.real u2) ^ 2
        = 1 - Real.sin (starPhi JSMath.real u2) ^ 2 := by linarith
    have ht2 : Real.cos (starTheta JSMath.real u1) ^ 2
        = 1 - Real.sin (starTheta JSMath.real u1) ^ 2 := by linarith
    ring_nf
    rw [hp2, ht2]
    ring
  rw [e, Real.sqrt_sq hr]

theorem starPhi_cos (u2 : ℝ) (h0 : 0 ≤ u2) (h1 : u2 < 1) :
    Real.cos (starPhi JSMath.real u2) = 2 * u2 - 1 := by
  simp only [starPhi, JSMath.real_acos]
  exact Real.cos_arccos (by linarith) (by linarith)

/-! ## Invariants of the reachable page states -/

theorem PageInv.pageLoad {α : Type} [LinearOrderedField α] (draws : Nat → α)
    (innerWidth innerHeight devicePixelRatio : α) (loadingText autoRotateLabel : String) :
    PageInv (pageLoad draws innerWidth innerHeight devicePixelRatio loadingText
      autoRotateLabel) := by
  constructor <;> simp [Globe.pageLoad]

theorem PageInv.load {α : Type} [LinearOrderedField α] (M : JSMath α)
    (orbit : Controls α → Camera α → Camera α) (w : World α) (h : PageInv w) :
    PageInv (step M orbit .load w) := by
  by_cases hl : w.loadFired = true
  · simpa [step, dispatch, hl, Completion.world] using h
  · have hf : w.loadFired = false := by simpa using hl
    obtain ⟨h1, h2, h3, h4, h5, h6, h7, h8⟩ := h.beforeLoad hf
    constructor <;>
      simp [step, dispatch, hf, init, createStars, Completion.world, h1, h2, h3, h4, h5, h6,
        h7, h8]

theorem PageInv.loadFired_of_pending {α : Type} [LinearOrderedField α] (w : World α)
    (h : PageInv w) (hp : w.textureRequests ≠ []) : w.loadFired = true := by
  cases hl : w.loadFired with
  | true => rfl
  | false => exact absurd (h.beforeLoad hl).1 hp

theorem PageInv.textureLoaded {α : Type} [LinearOrderedField α] (M : JSMath α)
    (orbit : Controls α → Camera α → Camera α) (texture : String) (w : World α)
    (h : PageInv w) : PageInv (step M orbit (.textureLoaded texture) w) := by
  cases hq : w.textureRequests with
  | nil => simpa [step, dispatch, hq, Completion.world] using h
  | cons url rest =>
    have hp : w.textureRequests ≠ [] := by simp [hq]
    have hf := h.loadFired_of_pending w hp
    obtain ⟨h1, h2, h3, h4, h5, h6, ⟨objs, h7⟩, ⟨r, h8⟩, ⟨cam, h9⟩⟩ := h.pending hp
    have hrest : rest = [] := by
      rw [hq] at h1
      simpa using h1
    constructor <;>
      simp [step, dispatch, hq, hrest, onTextureLoad, updateLoadingProgress, createGlobe,
        animate, newControls, totalTextures, Completion.world, hf, h2, h3, h4, h5, h6, h7,
        h8, h9]

theorem PageInv.textureError {α : Type} [LinearOrderedField α] (M : JSMath α)
    (orbit : Controls α → Camera α → Camera α) (w : World α)
    (h : PageInv w) : PageInv (step M orbit .textureError w) := by
  cases hq : w.textureRequests with
  | nil => simpa [step, dispatch, hq, Completion.world] using h
  | cons url rest =>
    have hp : w.textureRequests ≠ [] := by simp [hq]
    have hf := h.loadFired_of_pending w hp
    obtain ⟨h1, h2, h3, h4, h5, h6, ⟨objs, h7⟩, ⟨r, h8⟩, ⟨cam, h9⟩⟩ := h.pending hp
    have hrest : rest = [] := by
      rw [hq] at h1
      simpa using h1
    constructor <;>
      simp [step, dispatch, hq, hrest, onTextureError, Completion.world, hf, h2, h3, h4, h5,
        h6, h7, h8, h9]

theorem PageInv.clickAutoRotate {α : Type} [LinearOrderedField α] (M : JSMath α)
    (orbit : Controls α → Camera α → Camera α) (w : World α)
    (h : PageInv w) : PageInv (step M orbit .clickAutoRotate w) := by
  by_cases hl : Listener.autoRotateClick ∈ w.listeners
  · have hne : w.listeners ≠ [] := List.ne_nil_of_mem hl
    obtain ⟨c, hc⟩ := h.registered hne
    have hq : w.textureRequests = [] := by
      by_contra hp
      exact hne (h.pending hp).2.2.2.2.2.1
    have hf : w.loadFired = true := by
      cases hlf : w.loadFired with
      | true => rfl
      | false => exact absurd (h.beforeLoad hlf).2.1 hne
    have hk := h.controlsOk c hc
    constructor
    · simp [step, dispatch, hl, toggleAutoRotate, hc, Completion.world, hf]
    · simp [step, dispatch, hl, toggleAutoRotate, hc, Completion.world, hq]
    · simp [step, dispatch, hl, toggleAutoRotate, hc, Completion.world]
    · intro c1
      simp only [step, dispatch, hl, toggleAutoRotate, hc, Completion.world, if_true,
        Option.some.injEq]
      intro e
      subst e
      exact ⟨rfl, hk.2.1, hk.2.2⟩
  · simpa [step, dispatch, hl, Completion.world] using h

/-- A change that touches none of the fields the invariant reads keeps it. -/
theorem PageInv.of_fields_eq {α : Type} [LinearOrderedField α] (w v : World α)
    (h : PageInv w) (e1 : v.loadFired = w.loadFired)
    (e2 : v.textureRequests = w.textureRequests) (e3 : v.listeners = w.listeners)
    (e4 : v.controls = w.controls) (e5 : v.globe = w.globe)
    (e6 : v.frameRequests = w.frameRequests) (e7 : v.texturesLoaded = w.texturesLoaded)
    (e8 : v.isAutoRotating = w.isAutoRotating)
    (e9 : w.timers = [] → v.timers = []) (e10 : w.tweens = [] → v.tweens = [])
    (e11 : (∃ objs, w.scene = some objs) → ∃ objs, v.scene = some objs)
    (e12 : (∃ r, w.renderer = some r) → ∃ r, v.renderer = some r)
    (e13 : (∃ cam, w.camera = some cam) → ∃ cam, v.camera = some cam) : PageInv v := by
  constructor
  · intro hf
    rw [e1] at hf
    obtain ⟨h1, h2, h3, h4, h5, h6, h7, h8⟩ := h.beforeLoad hf
    exact ⟨e2 ▸ h1, e3 ▸ h2, e4 ▸ h3, e5 ▸ h4, e6 ▸ h5, e7 ▸ h6, e9 h7, e10 h8⟩
  · intro hp
    rw [e2] at hp
    obtain ⟨h1, h2, h3, h4, h5, h6, h7, h8, h9⟩ := h.pending hp
    exact ⟨e2 ▸ h1, e7 ▸ h2, e5 ▸ h3, e4 ▸ h4, e6 ▸ h5, e3 ▸ h6, e11 h7, e12 h8, e13 h9⟩
  · intro hl
    rw [e3] at hl
    rw [e4]
    exact h.registered hl
  · intro c hc
    rw [e4] at hc
    rw [e8]
    exact h.controlsOk c hc

theorem PageInv.clickZoomIn {α : Type} [LinearOrderedField α] (M : JSMath α)
    (orbit : Controls α → Camera α → Camera α) (w : World α)
    (h : PageInv w) : PageInv (step M orbit .clickZoomIn w) := by
  by_cases hl : Listener.zoomInClick ∈ w.listeners
  · have hne : w.listeners ≠ [] := List.ne_nil_of_mem hl
    have hf : w.loadFired = true := by
      cases hlf : w.loadFired with
      | true => rfl
      | false => exact absurd (h.beforeLoad hlf).2.1 hne
    cases hcam : w.camera <;> cases hc : w.controls <;>
      first
      | (simpa [step, dispatch, hl, zoomIn, hcam, hc, Completion.world] using h)
      | (constructor
         · simp [step, dispatch, hl, zoomIn, hcam, hc, Completion.world, hf]
         · simpa [step, dispatch, hl, zoomIn, hcam, hc, Completion.world] using h.pending
         · simp [step, dispatch, hl, zoomIn, hcam, hc, Completion.world]
         · simpa [step, dispatch, hl, zoomIn, hcam, hc, Completion.world] using h.controlsOk)
  · simpa [step, dispatch, hl, Completion.world] using h

theorem PageInv.clickZoomOut {α : Type} [LinearOrderedField α] (M : JSMath α)
    (orbit : Controls α → Camera α → Camera α) (w : World α)
    (h : PageInv w) : PageInv (step M orbit .clickZoomOut w) := by
  by_cases hl : Listener.zoomOutClick ∈ w.listeners
  · have hne : w.listeners ≠ [] := List.ne_nil_of_mem hl
    have hf : w.loadFired = true := by
      cases hlf : w.loadFired with
      | true => rfl
      | false => exact absurd (h.beforeLoad hlf).2.1 hne
    cases hcam : w.camera <;> cases hc : w.controls <;>
      first
      | (simpa [step, dispatch, hl, zoomOut, hcam, hc, Completion.world] using h)
      | (constructor
         · simp [step, dispatch, hl, zoomOut, hcam, hc, Completion.world, hf]
         · simpa [step, dispatch, hl, zoomOut, hcam, hc, Completion.world] using h.pending
         · simp [step, dispatch, hl, zoomOut, hcam, hc, Completion.world]
         · simpa [step, dispatch, hl, zoomOut, hcam, hc, Completion.world] using h.controlsOk)
  · simpa [step, dispatch, hl, Completion.world] using h

theorem PageInv.resize {α : Type} [LinearOrderedField α] (M : JSMath α)
    (orbit : Controls α → Camera α → Camera α) (width height : α) (w : World α)
    (h : PageInv w) : PageInv (step M orbit (.resize width height) w) := by
  by_cases hl : Listener.resize ∈ w.listeners <;> cases hcam : w.camera <;>
    cases hr : w.renderer <;>
    (apply PageInv.of_fields_eq w _ h <;>
      simp [step, dispatch, hl, onWindowResize, hcam, hr, Completion.world])

theorem PageInv.frame {α : Type} [LinearOrderedField α] (M : JSMath α)
    (orbit : Controls α → Camera α → Camera α) (w : World α)
    (h : PageInv w) : PageInv (step M orbit .frame w) := by
  by_cases hl : 0 < w.frameRequests
  · cases hcam : w.camera <;> cases hr : w.renderer <;> cases hc : w.controls <;>
      cases hs : w.scene <;>
      (apply PageInv.of_fields_eq w _ h <;>
        first
        | (simp [step, dispatch, hl, animate, hcam, hr, hc, hs, Completion.world]; done)
        | (simp [step, dispatch, hl, animate, hcam, hr, hc, hs, Completion.world]; omega))
  · simpa [step, dispatch, hl, Completion.world] using h

theorem PageInv.timer {α : Type} [LinearOrderedField α] (M : JSMath α)
    (orbit : Controls α → Camera α → Camera α) (k : Nat) (w : World α)
    (h : PageInv w) : PageInv (step M orbit (.timer k) w) := by
  cases hk : w.timers[k]? with
  | none => simpa [step, dispatch, hk, Completion.world] using h
  | some t =>
    have hne : w.timers ≠ [] := by
      intro e
      rw [e] at hk
      simp at hk
    obtain ⟨d, task⟩ := t
    cases task <;>
      (apply PageInv.of_fields_eq w _ h <;>
        simp [step, dispatch, hk, fadeLoading, hideLoading, Completion.world, hne])

theorem PageInv.tween {α : Type} [LinearOrderedField α] (M : JSMath α)
    (orbit : Controls α → Camera α → Camera α) (z : α) (w : World α)
    (h : PageInv w) : PageInv (step M orbit (.tween z) w) := by
  cases ht : w.tweens <;> cases hcam : w.camera <;>
    (apply PageInv.of_fields_eq w _ h <;>
      simp [step, dispatch, ht, hcam, Completion.world])

/-- Every event keeps the invariant. -/
theorem PageInv.step {α : Type} [LinearOrderedField α] (M : JSMath α)
    (orbit : Controls α → Camera α → Camera α) (e : Event α) (w : World α)
    (h : PageInv w) : PageInv (step M orbit e w) := by
  cases e with
  | load => exact h.load M orbit w
  | textureLoaded texture => exact h.textureLoaded M orbit texture w
  | textureError => exact h.textureError M orbit w
  | clickAutoRotate => exact h.clickAutoRotate M orbit w
  | clickZoomIn => exact h.clickZoomIn M orbit w
  | clickZoomOut => exact h.clickZoomOut M orbit w
  | resize width height => exact h.resize M orbit width height w
  | frame => exact h.frame M orbit w
  | timer k => exact h.timer M orbit k w
  | tween z => exact h.tween M orbit z w

/-- The invariant holds in every reachable state. -/
theorem Reachable.inv {α : Type} [LinearOrderedField α] (M : JSMath α)
    (orbit : Controls α → Camera α → Camera α) (w : World α)
    (h : Reachable M orbit w) : PageInv w := by
  induction h with
  | start draws iw ih dpr lt lbl => exact PageInv.pageLoad draws iw ih dpr lt lbl
  | next e w _ ih => exact ih.step M orbit e w

/-! ## The page after loading -/

/-- The page after the `load` event: `init` has run on the initial state. -/
theorem step_load_pageLoad {α : Type} [LinearOrderedField α] (M : JSMath α)
    (orbit : Controls α → Camera α → Camera α) (draws : Nat → α)
    (iw ih dpr : α) (lt lbl : String) :
    step M orbit .load (pageLoad draws iw ih dpr lt lbl) =
      { pageLoad draws iw ih dpr lt lbl with
        loadFired := true
        scene := some [.points (sampleStars M ⟨draws, 0⟩).1 3]
        camera := some { fov := 60, aspect := iw / ih, near := 0.1, far := 1000,
                         position := { x := 0, y := 0, z := 2.5 } }
        renderer := some { antialias := true, alpha := true, width := iw, height := ih,
                           pixelRatio := min dpr 2, frames := 0 }
        canvases := 1
        textureRequests := [earthTextureUrl]
        rng := (sampleStars M ⟨draws, 0⟩).2 } := by
  simp [step, dispatch, init, createStars, pageLoad, Completion.world]

/-- Listeners registered once the texture has loaded. -/
theorem listeners_after_texture {α : Type} [LinearOrderedField α] (M : JSMath α)
    (orbit : Controls α → Camera α → Camera α) (draws : Nat → α)
    (iw ih dpr : α) (lt lbl texture : String) :
    (step M orbit (.textureLoaded texture)
        (step M orbit .load (pageLoad draws iw ih dpr lt lbl))).listeners =
      [Listener.resize, Listener.autoRotateClick, Listener.zoomInClick,
        Listener.zoomOutClick] := by
  rw [step_load_pageLoad]
  simp [step, dispatch, onTextureLoad, updateLoadingProgress, createGlobe, animate, pageLoad,
    totalTextures, Completion.world]

theorem loadingProgress_one : loadingProgress 1 = 100 := by
  simp only [loadingProgress, mathRound, totalTextures]
  rw [Int.floor_eq_iff]
  norm_num

theorem loadingText_one : "Loading... " ++ toString (100 : Int) ++ "%" = "Loading... 100%" := by
  decide

/-! ## The star sets under the page's operations -/

theorem StarsKept.refl {α : Type} (w : World α) : StarsKept w w :=
  ⟨rfl, rfl, rfl⟩

theorem StarsKept.trans {α : Type} {u v w : World α} (h1 : StarsKept u v)
    (h2 : StarsKept v w) : StarsKept u w :=
  ⟨h2.1.trans h1.1, h2.2.1.trans h1.2.1, h2.2.2.trans h1.2.2⟩

theorem toggleAutoRotate_stars {α : Type} (w : World α) :
    StarsKept w (toggleAutoRotate w).world := by
  cases hc : w.controls <;> simp [StarsKept, toggleAutoRotate, hc, Completion.world, starSets]

theorem onWindowResize_stars {α : Type} [LinearOrderedField α] (w : World α) :
    StarsKept w (onWindowResize w).world := by
  cases hcam : w.camera <;> cases hr : w.renderer <;>
    simp [StarsKept, onWindowResize, hcam, hr, Completion.world, starSets]

theorem zoomIn_stars {α : Type} [LinearOrderedField α] (w : World α) :
    StarsKept w (zoomIn w).world := by
  cases hcam : w.camera <;> cases hc : w.controls <;>
    simp [StarsKept, zoomIn, hcam, hc, Completion.world, starSets]

theorem zoomOut_stars {α : Type} [LinearOrderedField α] (w : World α) :
    StarsKept w (zoomOut w).world := by
  cases hcam : w.camera <;> cases hc : w.controls <;>
    simp [StarsKept, zoomOut, hcam, hc, Completion.world, starSets]

theorem animate_stars {α : Type} (orbit : Controls α → Camera α → Camera α) (w : World α) :
    StarsKept w (animate orbit w) := by
  cases hcam : w.camera <;> cases hr : w.renderer <;> cases hc : w.controls <;>
    cases hs : w.scene <;> simp [StarsKept, animate, hcam, hr, hc, hs, starSets]

theorem updateLoadingProgress_stars {α : Type} (w : World α) :
    StarsKept w (updateLoadingProgress w) := by
  by_cases h : w.texturesLoaded ≥ totalTextures <;>
    simp [StarsKept, updateLoadingProgress, h, starSets]

theorem createGlobe_stars {α : Type} [LinearOrderedField α]
    (orbit : Controls α → Camera α → Camera α) (earthMap : String) (w : World α) :
    StarsKept w (createGlobe orbit earthMap w).world := by
  cases hs : w.scene with
  | none => simp [StarsKept, createGlobe, hs, Completion.world, starSets]
  | some objs =>
    cases hr : w.renderer with
    | none => simp [StarsKept, createGlobe, hs, hr, Completion.world, starSets]
    | some r =>
      have e : createGlobe orbit earthMap w = .normal (animate orbit
          { w with
            globe := some (.mesh 1 (some earthMap))
            scene := some (objs ++ [.mesh 1 (some earthMap), .mesh 1.02 none,
              .ambientLight 0x333333, .pointLight 0xffffff 1.5 { x := 5, y := 3, z := 5 }])
            controls := some (newControls w.isAutoRotating)
            listeners := w.listeners ++ [Listener.resize, Listener.autoRotateClick,
              Listener.zoomInClick, Listener.zoomOutClick] }) := by
        simp [createGlobe, hs, hr]
      rw [e]
      refine StarsKept.trans ?_ (animate_stars orbit _)
      simp [StarsKept, starSets, hs]

theorem onTextureLoad_stars {α : Type} [LinearOrderedField α]
    (orbit : Controls α → Camera α → Camera α) (texture : String) (w : World α) :
    StarsKept w (onTextureLoad orbit texture w).world := by
  simp only [onTextureLoad]
  refine StarsKept.trans ?_ (createGlobe_stars orbit texture _)
  refine StarsKept.trans ?_ (updateLoadingProgress_stars _)
  simp [StarsKept, starSets]

theorem onTextureError_stars {α : Type} (w : World α) :
    StarsKept w (onTextureError w) := by
  simp [StarsKept, onTextureError, starSets]

/-- No event other than `load` touches the star sets or the random source. -/
theorem step_stars {α : Type} [LinearOrderedField α] (M : JSMath α)
    (orbit : Controls α → Camera α → Camera α) (e : Event α) (w : World α)
    (he : e ≠ .load ∨ w.loadFired = true) : StarsKept w (step M orbit e w) := by
  cases e with
  | load =>
    have hf : w.loadFired = true := by
      cases he with
      | inl h => exact absurd rfl h
      | inr h => exact h
    simp [step, dispatch, hf, Completion.world, StarsKept]
  | textureLoaded texture =>
    cases hq : w.textureRequests with
    | nil => simp [step, dispatch, hq, Completion.world, StarsKept]
    | cons url rest =>
      simp only [step, dispatch, hq]
      refine StarsKept.trans ?_ (onTextureLoad_stars orbit texture _)
      simp [StarsKept, starSets]
  | textureError =>
    cases hq : w.textureRequests with
    | nil => simp [step, dispatch, hq, Completion.world, StarsKept]
    | cons url rest =>
      simp only [step, dispatch, hq, Completion.world]
      refine StarsKept.trans ?_ (onTextureError_stars _)
      simp [StarsKept, starSets]
  | clickAutoRotate =>
    by_cases hl : Listener.autoRotateClick ∈ w.listeners
    · simp only [step, dispatch, hl, if_true]
      exact toggleAutoRotate_stars w
    · simp [step, dispatch, hl, Completion.world, StarsKept]
  | clickZoomIn =>
    by_cases hl : Listener.zoomInClick ∈ w.listeners
    · simp only [step, dispatch, hl, if_true]
      exact zoomIn_stars w
    · simp [step, dispatch, hl, Completion.world, StarsKept]
  | clickZoomOut =>
    by_cases hl : Listener.zoomOutClick ∈ w.listeners
    · simp only [step, dispatch, hl, if_true]
      exact zoomOut_stars w
    · simp [step, dispatch, hl, Completion.world, StarsKept]
  | resize width height =>
    by_cases hl : Listener.resize ∈ w.listeners
    · simp only [step, dispatch, hl, if_true]
      refine StarsKept.trans ?_ (onWindowResize_stars _)
      simp [StarsKept, starSets]
    · simp [step, dispatch, hl, Completion.world, StarsKept, starSets]
  | frame =>
    by_cases hl : 0 < w.frameRequests
    · simp only [step, dispatch, hl, if_true, Completion.world]
      refine StarsKept.trans ?_ (animate_stars orbit _)
      simp [StarsKept, starSets]
    · simp [step, dispatch, hl, Completion.world, StarsKept]
  | timer k =>
    cases hk : w.timers[k]? with
    | none => simp [step, dispatch, hk, Completion.world, StarsKept]
    | some t =>
      obtain ⟨d, task⟩ := t
      cases task <;>
        simp [step, dispatch, hk, fadeLoading, hideLoading, Completion.world, StarsKept,
          starSets]
  | tween z =>
    cases ht : w.tweens <;> cases hcam : w.camera <;>
      simp [step, dispatch, ht, hcam, Completion.world, StarsKept, starSets]

/-- Once `load` has been delivered, no sequence of events touches the star
sets or the random source. -/
theorem run_stars {α : Type} [LinearOrderedField α] (M : JSMath α)
    (orbit : Controls α → Camera α → Camera α) (es : List (Event α)) :
    ∀ w : World α, w.loadFired = true → StarsKept w (run M orbit es w) := by
  induction es with
  | nil => intro w _; exact StarsKept.refl w
  | cons e es ih =>
    intro w hw
    have h1 := step_stars M orbit e w (Or.inr hw)
    have h2 := ih (step M orbit e w) (h1.2.2.trans hw)
    exact StarsKept.trans h1 h2

/-- Controls in place once the texture has loaded. -/
theorem controls_after_texture {α : Type} [LinearOrderedField α] (M : JSMath α)
    (orbit : Controls α → Camera α → Camera α) (draws : Nat → α)
    (iw ih dpr : α) (lt lbl texture : String) :
    (step M orbit (.textureLoaded texture)
        (step M orbit .load (pageLoad draws iw ih dpr lt lbl))).controls =
      some (newControls true) := by
  rw [step_load_pageLoad]
  simp [step, dispatch, onTextureLoad, updateLoadingProgress, createGlobe, animate, pageLoad,
    totalTextures, Completion.world]

/-- The texture request is outstanding after the `load` event. -/
theorem textureRequests_after_load {α : Type} [LinearOrderedField α] (M : JSMath α)
    (orbit : Controls α → Camera α → Camera α) (draws : Nat → α)
    (iw ih dpr : α) (lt lbl : String) :
    (step M orbit .load (pageLoad draws iw ih dpr lt lbl)).textureRequests =
      [earthTextureUrl] := by
  rw [step_load_pageLoad]

/-! ## Claims on the star sampler -/

/-- C1: radius band of `createStars`.  Whenever every draw of the random source
lies in `[0, 1)`, each of the 10000 points `(x, y, z)` pushed by the sampling
loop satisfies `15 ≤ sqrt (x² + y² + z²) < 115`, in real arithmetic. -/
theorem createStars_radius_band (g : Rng ℝ) (hd : ∀ k, 0 ≤ g.draws k ∧ g.draws k < 1)
    (i : Nat) (hi : i < 10000) :
    ∃ x y z : ℝ, pointAt (sampleStars JSMath.real g).1 i = some (x, y, z) ∧
      15 ≤ Real.sqrt (x ^ 2 + y ^ 2 + z ^ 2) ∧ Real.sqrt (x ^ 2 + y ^ 2 + z ^ 2) < 115 := by
  have hu := hd (g.drawn + 3 * i)
  have hn := starPoint_norm (g.draws (g.drawn + 3 * i)) (g.draws (g.drawn + 3 * i + 1))
    (g.draws (g.drawn + 3 * i + 2)) hu.1
  have hb := starRadius_bounds _ hu.1 hu.2
  rw [← hn] at hb
  exact ⟨_, _, _, sampleStars_pointAt JSMath.real g i hi, hb⟩

/-- C1 at the source whose draws are all `0`, first point. -/
theorem createStars_radius_band_witness :
    ∃ x y z : ℝ, pointAt (sampleStars JSMath.real ⟨fun _ => 0, 0⟩).1 0 = some (x, y, z) ∧
      15 ≤ Real.sqrt (x ^ 2 + y ^ 2 + z ^ 2) ∧ Real.sqrt (x ^ 2 + y ^ 2 + z ^ 2) < 115 :=
  createStars_radius_band ⟨fun _ => 0, 0⟩ (fun _ => ⟨le_refl 0, zero_lt_one⟩) 0 (by decide)

/-- C2: `createStars` hands the renderer exactly 10000 points.  On a page whose
scene exists, for every `Math` and random source, `createStars` completes
normally, adds one `Points` object with item size 3 whose flat buffer has
length `3 * 10000`, and point `i` of the buffer (indices `3i`, `3i+1`, `3i+2`)
is the star computed from the `i`-th triple of draws, in generation order. -/
theorem createStars_count {α : Type} [LinearOrderedField α] (M : JSMath α) (w : World α)
    (objs : List (SceneObject α)) (hs : w.scene = some objs) :
    ∃ (vs : Array α) (w1 : World α),
      createStars M w = .normal w1 ∧
      w1.scene = some (objs ++ [.points vs 3]) ∧
      vs.size = 3 * 10000 ∧
      ∀ i, i < 10000 →
        vs[3 * i]? = some (starPoint M (w.rng.draws (w.rng.drawn + 3 * i))
          (w.rng.draws (w.rng.drawn + 3 * i + 1)) (w.rng.draws (w.rng.drawn + 3 * i + 2))).1 ∧
        vs[3 * i + 1]? = some (starPoint M (w.rng.draws (w.rng.drawn + 3 * i))
          (w.rng.draws (w.rng.drawn + 3 * i + 1)) (w.rng.draws (w.rng.drawn + 3 * i + 2))).2.1 ∧
        vs[3 * i + 2]? = some (starPoint M (w.rng.draws (w.rng.drawn + 3 * i))
          (w.rng.draws (w.rng.drawn + 3 * i + 1)) (w.rng.draws (w.rng.drawn + 3 * i + 2))).2.2 := by
  refine ⟨(sampleStars M w.rng).1,
    { w with rng := (sampleStars M w.rng).2,
             scene := some (objs ++ [.points (sampleStars M w.rng).1 3]) },
    ?_, rfl, sampleStars_size M w.rng, ?_⟩
  · simp only [createStars, hs]
  · intro i hi
    have h := starsLoop_getElem? M 10000 (#[], w.rng) i hi
    simp only [Array.size_empty, Nat.zero_add] at h
    exact h

/-- C2 on the page at load time with an empty scene, rational numbers and a
`Math` whose functions are constant. -/
theorem createStars_count_witness :
    ∃ (vs : Array ℚ) (w1 : World ℚ),
      createStars exampleMath
        { pageLoad (fun _ => 0) 800 600 1 "" "" with scene := some [] } = .normal w1 ∧
      w1.scene = some ([] ++ [.points vs 3]) ∧
      vs.size = 3 * 10000 ∧
      ∀ i, i < 10000 →
        vs[3 * i]? = some (starPoint exampleMath
          0 0 0).1 ∧
        vs[3 * i + 1]? = some (starPoint exampleMath
          0 0 0).2.1 ∧
        vs[3 * i + 2]? = some (starPoint exampleMath
          0 0 0).2.2 :=
  createStars_count exampleMath
    { pageLoad (fun _ => 0) 800 600 1 "" "" with scene := some [] } [] rfl

/-- C3: closed form of a star.  Point `i` of the buffer is computed from draws
`3i`, `3i+1`, `3i+2` of the random source, consumed as radius, theta, phi:
`r = 15 + u * (115 - 15)`, `theta = 2π u1`, `phi = arccos (2 u2 - 1)` and the
point is `(r sin phi cos theta, r sin phi sin theta, r cos phi)`.  The draws
`(0, 0.25, 0.5)` give `r = 15`, `theta = π/2`, `phi = π/2` and the point
`(0, 15, 0)`. -/
theorem createStars_closed_form (g : Rng ℝ) (i : Nat) (hi : i < 10000) :
    pointAt (sampleStars JSMath.real g).1 i =
        some
          ((15 + g.draws (g.drawn + 3 * i) * (115 - 15))
              * Real.sin (Real.arccos (2 * g.draws (g.drawn + 3 * i + 2) - 1))
              * Real.cos (2 * Real.pi * g.draws (g.drawn + 3 * i + 1)),
           (15 + g.draws (g.drawn + 3 * i) * (115 - 15))
              * Real.sin (Real.arccos (2 * g.draws (g.drawn + 3 * i + 2) - 1))
              * Real.sin (2 * Real.pi * g.draws (g.drawn + 3 * i + 1)),
           (15 + g.draws (g.drawn + 3 * i) * (115 - 15))
              * Real.cos (Real.arccos (2 * g.draws (g.drawn + 3 * i + 2) - 1))) ∧
      starRadius (0 : ℝ) = 15 ∧
      starTheta JSMath.real 0.25 = Real.pi / 2 ∧
      starPhi JSMath.real 0.5 = Real.pi / 2 ∧
      starPoint JSMath.real 0 0.25 0.5 = (0, 15, 0) := by
  have ht : starTheta JSMath.real 0.25 = Real.pi / 2 := by
    simp only [starTheta, JSMath.real_PI]
    ring
  have hp : starPhi JSMath.real 0.5 = Real.pi / 2 := by
    simp only [starPhi, JSMath.real_acos]
    norm_num
  have hr : starRadius (0 : ℝ) = 15 := by
    simp [starRadius]
  refine ⟨?_, hr, ht, hp, ?_⟩
  · rw [sampleStars_pointAt JSMath.real g i hi]
    simp only [starPoint, starRadius, starTheta, starPhi, JSMath.real_sin, JSMath.real_cos,
      JSMath.real_acos, JSMath.real_PI]
    norm_num
  · simp only [starPoint, ht, hp, hr, JSMath.real_sin, JSMath.real_cos, Real.sin_pi_div_two,
      Real.cos_pi_div_two]
    norm_num

/-- C3 at the source whose draws are all `0`, first point. -/
theorem createStars_closed_form_witness :
    pointAt (sampleStars JSMath.real ⟨fun _ => 0, 0⟩).1 0 =
        some
          ((15 + (0 : ℝ) * (115 - 15)) * Real.sin (Real.arccos (2 * 0 - 1))
              * Real.cos (2 * Real.pi * 0),
           (15 + (0 : ℝ) * (115 - 15)) * Real.sin (Real.arccos (2 * 0 - 1))
              * Real.sin (2 * Real.pi * 0),
           (15 + (0 : ℝ) * (115 - 15)) * Real.cos (Real.arccos (2 * 0 - 1))) ∧
      starRadius (0 : ℝ) = 15 ∧
      starTheta JSMath.real 0.25 = Real.pi / 2 ∧
      starPhi JSMath.real 0.5 = Real.pi / 2 ∧
      starPoint JSMath.real 0 0.25 0.5 = (0, 15, 0) :=
  createStars_closed_form ⟨fun _ => 0, 0⟩ 0 (by decide)

/-- C9: angle ranges of `createStars`.  With every draw in `[0, 1)`, for point
`i` with draws `(u, u1, u2)`: `theta = 2π u1` lies in `[0, 2π)`,
`phi = arccos (2 u2 - 1)` lies in `[0, π]` so `sin phi ≥ 0`, and the point's
`z` equals `r (2 u2 - 1)`, so `z / r = 2 u2 - 1` lies in `[-1, 1)`. -/
theorem createStars_angle_ranges (g : Rng ℝ) (hd : ∀ k, 0 ≤ g.draws k ∧ g.draws k < 1)
    (i : Nat) (hi : i < 10000) :
    (0 ≤ starTheta JSMath.real (g.draws (g.drawn + 3 * i + 1)) ∧
      starTheta JSMath.real (g.draws (g.drawn + 3 * i + 1)) < 2 * Real.pi) ∧
    (0 ≤ starPhi JSMath.real (g.draws (g.drawn + 3 * i + 2)) ∧
      starPhi JSMath.real (g.draws (g.drawn + 3 * i + 2)) ≤ Real.pi) ∧
    0 ≤ Real.sin (starPhi JSMath.real (g.draws (g.drawn + 3 * i + 2))) ∧
    ∃ x y z : ℝ, pointAt (sampleStars JSMath.real g).1 i = some (x, y, z) ∧
      z = starRadius (g.draws (g.drawn + 3 * i)) * (2 * g.draws (g.drawn + 3 * i + 2) - 1) ∧
      z / starRadius (g.draws (g.drawn + 3 * i)) = 2 * g.draws (g.drawn + 3 * i + 2) - 1 ∧
      -1 ≤ z / starRadius (g.draws (g.drawn + 3 * i)) ∧
      z / starRadius (g.draws (g.drawn + 3 * i)) < 1 := by
  have hu := hd (g.drawn + 3 * i)
  have hu1 := hd (g.drawn + 3 * i + 1)
  have hu2 := hd (g.drawn + 3 * i + 2)
  have hpi := Real.pi_pos
  have hr := starRadius_bounds _ hu.1 hu.2
  have hr0 : starRadius (g.draws (g.drawn + 3 * i)) ≠ 0 := by linarith [hr.1]
  have hphi0 : 0 ≤ starPhi JSMath.real (g.draws (g.drawn + 3 * i + 2)) := by
    simp only [starPhi, JSMath.real_acos]
    exact Real.arccos_nonneg _
  have hphi1 : starPhi JSMath.real (g.draws (g.drawn + 3 * i + 2)) ≤ Real.pi := by
    simp only [starPhi, JSMath.real_acos]
    exact Real.arccos_le_pi _
  have hz : (starPoint JSMath.real (g.draws (g.drawn + 3 * i)) (g.draws (g.drawn + 3 * i + 1))
      (g.draws (g.drawn + 3 * i + 2))).2.2 =
      starRadius (g.draws (g.drawn + 3 * i)) * (2 * g.draws (g.drawn + 3 * i + 2) - 1) := by
    simp only [starPoint, JSMath.real_cos]
    rw [starPhi_cos _ hu2.1 hu2.2]
  refine ⟨⟨?_, ?_⟩, ⟨hphi0, hphi1⟩, Real.sin_nonneg_of_nonneg_of_le_pi hphi0 hphi1, ?_⟩
  · simp only [starTheta, JSMath.real_PI]
    have := hu1.1
    positivity
  · simp only [starTheta, JSMath.real_PI]
    nlinarith [hu1.2]
  · have hq : (starPoint JSMath.real (g.draws (g.drawn + 3 * i))
        (g.draws (g.drawn + 3 * i + 1)) (g.draws (g.drawn + 3 * i + 2))).2.2
        / starRadius (g.draws (g.drawn + 3 * i)) = 2 * g.draws (g.drawn + 3 * i + 2) - 1 := by
      rw [hz, mul_div_cancel_left₀ _ hr0]
    refine ⟨_, _, _, sampleStars_pointAt JSMath.real g i hi, hz, hq, ?_, ?_⟩
    · exact hq ▸ (by linarith [hu2.1])
    · exact hq ▸ (by linarith [hu2.2])

/-- C9 at the source whose draws are all `0`, first point. -/
theorem createStars_angle_ranges_witness :
    (0 ≤ starTheta JSMath.real (0 : ℝ) ∧ starTheta JSMath.real (0 : ℝ) < 2 * Real.pi) ∧
    (0 ≤ starPhi JSMath.real (0 : ℝ) ∧ starPhi JSMath.real (0 : ℝ) ≤ Real.pi) ∧
    0 ≤ Real.sin (starPhi JSMath.real (0 : ℝ)) ∧
    ∃ x y z : ℝ, pointAt (sampleStars JSMath.real ⟨fun _ => 0, 0⟩).1 0 = some (x, y, z) ∧
      z = starRadius (0 : ℝ) * (2 * 0 - 1) ∧
      z / starRadius (0 : ℝ) = 2 * 0 - 1 ∧
      -1 ≤ z / starRadius (0 : ℝ) ∧
      z / starRadius (0 : ℝ) < 1 :=
  createStars_angle_ranges ⟨fun _ => 0, 0⟩ (fun _ => ⟨le_refl 0, zero_lt_one⟩) 0 (by decide)

/-- C5: determinism of star generation.  Two runs of the sampling loop of
`createStars` whose random sources return the same 30000 draws produce the
same buffer: the same length and the same `(x, y, z)` at every index. -/
theorem createStars_deterministic {α : Type} [LinearOrderedField α] (M : JSMath α)
    (g1 g2 : Rng α)
    (h : ∀ k, k < 30000 → g1.draws (g1.drawn + k) = g2.draws (g2.drawn + k)) :
    (sampleStars M g1).1 = (sampleStars M g2).1 ∧
      (sampleStars M g1).1.size = (sampleStars M g2).1.size ∧
      ∀ i, pointAt (sampleStars M g1).1 i = pointAt (sampleStars M g2).1 i := by
  have e : (sampleStars M g1).1 = (sampleStars M g2).1 :=
    starsLoop_congr M 10000 #[] g1 g2 h
  exact ⟨e, by rw [e], fun i => by rw [e]⟩

/-- C5 for two sources with the same draws and different positions reached. -/
theorem createStars_deterministic_witness :
    (sampleStars (⟨3, fun x => x, fun x => x + 1, fun x => 2 * x⟩ : JSMath ℚ)
        ⟨fun _ => 1 / 2, 0⟩).1 =
      (sampleStars (⟨3, fun x => x, fun x => x + 1, fun x => 2 * x⟩ : JSMath ℚ)
        ⟨fun _ => 1 / 2, 7⟩).1 ∧
      (sampleStars (⟨3, fun x => x, fun x => x + 1, fun x => 2 * x⟩ : JSMath ℚ)
        ⟨fun _ => 1 / 2, 0⟩).1.size =
      (sampleStars (⟨3, fun x => x, fun x => x + 1, fun x => 2 * x⟩ : JSMath ℚ)
        ⟨fun _ => 1 / 2, 7⟩).1.size ∧
      ∀ i, pointAt (sampleStars (⟨3, fun x => x, fun x => x + 1, fun x => 2 * x⟩ : JSMath ℚ)
          ⟨fun _ => 1 / 2, 0⟩).1 i =
        pointAt (sampleStars (⟨3, fun x => x, fun x => x + 1, fun x => 2 * x⟩ : JSMath ℚ)
          ⟨fun _ => 1 / 2, 7⟩).1 i :=
  createStars_deterministic _ ⟨fun _ => 1 / 2, 0⟩ ⟨fun _ => 1 / 2, 7⟩ (fun _ _ => rfl)

/-- C4, as stated, fails: called with the arguments `(0, 5.0, 5.0)` (a count of
zero and equal radii) on a page whose scene exists, `createStars` does not fail
with `InvalidArgument`: it completes normally, has consumed 30000 draws and has
added a full buffer of 30000 coordinates to the scene. -/
theorem createStars_invalid_arguments_accepted :
    ∃ (w1 : World ℝ) (vs : Array ℝ),
      callCreateStars JSMath.real [0, 5, 5]
        { pageLoad (fun _ => 0) 800 600 1 "" "" with scene := some [] } = .normal w1 ∧
      w1.rng.drawn = 30000 ∧
      w1.scene = some [.points vs 3] ∧
      vs.size = 30000 := by
  refine ⟨{ pageLoad (fun _ => 0) 800 600 1 "" "" with
      rng := (sampleStars JSMath.real ⟨fun _ => 0, 0⟩).2,
      scene := some [.points (sampleStars JSMath.real ⟨fun _ => 0, 0⟩).1 3] },
    (sampleStars JSMath.real ⟨fun _ => 0, 0⟩).1, ?_, ?_, rfl, sampleStars_size _ _⟩
  · simp only [callCreateStars, createStars, pageLoad, List.nil_append]
  · simp only [sampleStars_rng]

/-- C4, amended: `createStars` declares no parameter and has no validation.
Whatever arguments it is called with and in whatever state, it samples (exactly
30000 draws are consumed), it never ends with `InvalidArgument`, and when the
scene exists it completes normally and adds the full buffer of `3 * 10000`
coordinates. -/
theorem createStars_never_invalid_argument {α : Type} [LinearOrderedField α] (M : JSMath α)
    (args : List α) (w : World α) :
    (callCreateStars M args w).world.rng.drawn = w.rng.drawn + 30000 ∧
      (∀ w1, callCreateStars M args w ≠ .throw "InvalidArgument" w1) ∧
      ∀ objs, w.scene = some objs →
        ∃ (w1 : World α) (vs : Array α),
          callCreateStars M args w = .normal w1 ∧
          w1.scene = some (objs ++ [.points vs 3]) ∧
          vs.size = 3 * 10000 := by
  refine ⟨?_, ?_, ?_⟩
  · cases hs : w.scene <;>
      simp only [callCreateStars, createStars, hs, Completion.world, sampleStars_rng]
  · intro w1
    cases hs : w.scene <;> simp [callCreateStars, createStars, hs]
  · intro objs hs
    exact ⟨{ w with rng := (sampleStars M w.rng).2,
                    scene := some (objs ++ [.points (sampleStars M w.rng).1 3]) },
      (sampleStars M w.rng).1, by simp only [callCreateStars, createStars, hs], rfl,
      sampleStars_size M w.rng⟩

/-- C4 amended, at the arguments `(0, 5, 5)` on the page at load time with an
empty scene. -/
theorem createStars_never_invalid_argument_witness :
    ∃ (w1 : World ℚ) (vs : Array ℚ),
      callCreateStars exampleMath [0, 5, 5]
        { pageLoad (fun _ => 0) 800 600 1 "" "" with scene := some [] } = .normal w1 ∧
      w1.scene = some ([] ++ [.points vs 3]) ∧
      vs.size = 3 * 10000 :=
  (createStars_never_invalid_argument exampleMath [0, 5, 5]
    { pageLoad (fun _ => 0) 800 600 1 "" "" with scene := some [] }).2.2 [] rfl

/-! ## Claims on the page's controls and loading -/

/-- C6: `toggleAutoRotate` flips the flag.  In every reachable state where the
click listener of the button is registered, one call ends normally with
`isAutoRotating` negated, `controls.autoRotate` equal to the new flag and the
label `Stop Rotation` exactly when the flag is true, `Auto Rotate` otherwise;
a second call restores `isAutoRotating` and the controls to what they were
before the first, with the label those values imply. -/
theorem toggleAutoRotate_flips {α : Type} [LinearOrderedField α] (M : JSMath α)
    (orbit : Controls α → Camera α → Camera α) (w : World α)
    (hr : Reachable M orbit w) (hl : Listener.autoRotateClick ∈ w.listeners) :
    ∃ (w1 w2 : World α) (c c1 : Controls α),
      w.controls = some c ∧
      toggleAutoRotate w = .normal w1 ∧
      w1.isAutoRotating = (!w.isAutoRotating) ∧
      w1.controls = some c1 ∧
      c1.autoRotate = w1.isAutoRotating ∧
      (w1.autoRotateLabel = "Stop Rotation" ↔ w1.isAutoRotating = true) ∧
      (w1.autoRotateLabel = "Auto Rotate" ↔ w1.isAutoRotating = false) ∧
      toggleAutoRotate w1 = .normal w2 ∧
      w2.isAutoRotating = w.isAutoRotating ∧
      w2.controls = w.controls ∧
      w2.autoRotateLabel = (if w.isAutoRotating then "Stop Rotation" else "Auto Rotate") := by
  have hi := Reachable.inv M orbit w hr
  obtain ⟨c, hc⟩ := hi.registered (List.ne_nil_of_mem hl)
  have hk := (hi.controlsOk c hc).1
  have e1 : toggleAutoRotate w = .normal (toggleAutoRotate w).world := by
    simp only [toggleAutoRotate, hc, Completion.world]
  have hc1 : (toggleAutoRotate w).world.controls
      = some { c with autoRotate := !w.isAutoRotating } := by
    simp only [toggleAutoRotate, hc, Completion.world]
  have hb1 : (toggleAutoRotate w).world.isAutoRotating = (!w.isAutoRotating) := by
    simp only [toggleAutoRotate, hc, Completion.world]
  have hl1 : (toggleAutoRotate w).world.autoRotateLabel
      = if (!w.isAutoRotating) = true then "Stop Rotation" else "Auto Rotate" := by
    simp only [toggleAutoRotate, hc, Completion.world]
  have e2 : toggleAutoRotate (toggleAutoRotate w).world
      = .normal (toggleAutoRotate (toggleAutoRotate w).world).world := by
    rw [toggleAutoRotate, hc1]
    simp only [Completion.world]
  have hc2 : (toggleAutoRotate (toggleAutoRotate w).world).world.controls = w.controls := by
    rw [toggleAutoRotate, hc1, hb1, hc]
    cases c
    simp only [Completion.world, Bool.not_not, Option.some.injEq, Controls.mk.injEq, true_and,
      and_true]
    exact hk.symm
  have hb2 : (toggleAutoRotate (toggleAutoRotate w).world).world.isAutoRotating
      = w.isAutoRotating := by
    rw [toggleAutoRotate, hc1, hb1]
    simp only [Completion.world, Bool.not_not]
  have hl2 : (toggleAutoRotate (toggleAutoRotate w).world).world.autoRotateLabel
      = if w.isAutoRotating then "Stop Rotation" else "Auto Rotate" := by
    rw [toggleAutoRotate, hc1, hb1]
    simp only [Completion.world, Bool.not_not]
  refine ⟨(toggleAutoRotate w).world, (toggleAutoRotate (toggleAutoRotate w).world).world, c,
    { c with autoRotate := !w.isAutoRotating }, hc, e1, hb1, hc1, ?_, ?_, ?_, e2, hb2, hc2, hl2⟩
  · rw [hb1]
  · rw [hl1, hb1]
    cases w.isAutoRotating <;> simp
  · rw [hl1, hb1]
    cases w.isAutoRotating <;> simp

/-- C6 on the example page after `load` and a successful texture load. -/
theorem toggleAutoRotate_flips_witness :
    Listener.autoRotateClick ∈ exampleLoaded.listeners ∧
      ∃ (w1 w2 : World ℚ) (c c1 : Controls ℚ),
        exampleLoaded.controls = some c ∧
        toggleAutoRotate exampleLoaded = .normal w1 ∧
        w1.isAutoRotating = (!exampleLoaded.isAutoRotating) ∧
        w1.controls = some c1 ∧
        c1.autoRotate = w1.isAutoRotating ∧
        (w1.autoRotateLabel = "Stop Rotation" ↔ w1.isAutoRotating = true) ∧
        (w1.autoRotateLabel = "Auto Rotate" ↔ w1.isAutoRotating = false) ∧
        toggleAutoRotate w1 = .normal w2 ∧
        w2.isAutoRotating = exampleLoaded.isAutoRotating ∧
        w2.controls = exampleLoaded.controls ∧
        w2.autoRotateLabel =
          (if exampleLoaded.isAutoRotating then "Stop Rotation" else "Auto Rotate") :=
  have hl : Listener.autoRotateClick ∈ exampleLoaded.listeners := by
    simp only [exampleLoaded, exampleInitialised, examplePage, listeners_after_texture]
    decide
  ⟨hl, toggleAutoRotate_flips exampleMath exampleOrbit exampleLoaded
    (.next _ _ (.next _ _ (.start _ _ _ _ _ _))) hl⟩

/-- C7: the texture load branches on success and failure.  In every reachable
state with the texture request outstanding, the success callback ends normally
with `texturesLoaded` increased by exactly 1 and equal to `totalTextures = 1`,
the progress `round (texturesLoaded / totalTextures * 100) = 100` displayed,
the hiding of the loading overlay scheduled, the globe created and added to
the scene, the controls created and the render loop started; the error
callback leaves `texturesLoaded` unchanged, creates no globe and no controls,
adds nothing to the scene, starts no render loop and sets the loading text to
the error message. -/
theorem texture_load_branches {α : Type} [LinearOrderedField α] (M : JSMath α)
    (orbit : Controls α → Camera α → Camera α) (texture : String) (w : World α)
    (hr : Reachable M orbit w) (hp : w.textureRequests ≠ []) :
    (∃ (w1 : World α) (objs : List (SceneObject α)),
      dispatch M orbit (.textureLoaded texture) w = .normal w1 ∧
      w1.texturesLoaded = w.texturesLoaded + 1 ∧
      w1.texturesLoaded = totalTextures ∧
      totalTextures = 1 ∧
      loadingProgress w1.texturesLoaded = 100 ∧
      w1.loadingText = "Loading... " ++ toString (loadingProgress w1.texturesLoaded) ++ "%" ∧
      w1.loadingText = "Loading... 100%" ∧
      (1000, TimerTask.fadeLoading) ∈ w1.timers ∧
      w1.globe = some (.mesh 1 (some texture)) ∧
      w1.scene = some objs ∧
      SceneObject.mesh 1 (some texture) ∈ objs ∧
      w1.controls = some (newControls w.isAutoRotating) ∧
      w1.frameRequests = 1) ∧
    ∃ w2 : World α,
      dispatch M orbit .textureError w = .normal w2 ∧
      w2.texturesLoaded = w.texturesLoaded ∧
      w2.globe = none ∧
      w2.controls = none ∧
      w2.scene = w.scene ∧
      w2.renderer = w.renderer ∧
      w2.frameRequests = 0 ∧
      w2.listeners = [] ∧
      w2.loadingText = textureErrorText ∧
      textureErrorText = "Error loading texture. Please refresh." := by
  have hi := Reachable.inv M orbit w hr
  obtain ⟨h1, h2, h3, h4, h5, h6, ⟨objs, h7⟩, ⟨r, h8⟩, ⟨cam, h9⟩⟩ := hi.pending hp
  cases hq : w.textureRequests with
  | nil => exact absurd hq hp
  | cons url rest =>
    constructor
    · refine ⟨(dispatch M orbit (.textureLoaded texture) w).world,
        objs ++ [.mesh 1 (some texture), .mesh 1.02 none, .ambientLight 0x333333,
          .pointLight 0xffffff 1.5 { x := 5, y := 3, z := 5 }], ?_, ?_, ?_, rfl, ?_, ?_, ?_,
        ?_, ?_, ?_, ?_, ?_, ?_⟩
      · simp [dispatch, hq, onTextureLoad, updateLoadingProgress, createGlobe, animate,
          totalTextures, Completion.world, h2, h7, h8, h9]
      · simp [dispatch, hq, onTextureLoad, updateLoadingProgress, createGlobe, animate,
          totalTextures, Completion.world, h2, h7, h8, h9]
      · simp [dispatch, hq, onTextureLoad, updateLoadingProgress, createGlobe, animate,
          totalTextures, Completion.world, h2, h7, h8, h9]
      · simp [dispatch, hq, onTextureLoad, updateLoadingProgress, createGlobe, animate,
          totalTextures, Completion.world, h2, h7, h8, h9, loadingProgress_one]
      · simp [dispatch, hq, onTextureLoad, updateLoadingProgress, createGlobe, animate,
          totalTextures, Completion.world, h2, h7, h8, h9]
      · simp [dispatch, hq, onTextureLoad, updateLoadingProgress, createGlobe, animate,
          totalTextures, Completion.world, h2, h7, h8, h9, loadingProgress_one,
          loadingText_one]
      · simp [dispatch, hq, onTextureLoad, updateLoadingProgress, createGlobe, animate,
          totalTextures, Completion.world, h2, h7, h8, h9]
      · simp [dispatch, hq, onTextureLoad, updateLoadingProgress, createGlobe, animate,
          totalTextures, Completion.world, h2, h7, h8, h9]
      · simp [dispatch, hq, onTextureLoad, updateLoadingProgress, createGlobe, animate,
          totalTextures, Completion.world, h2, h7, h8, h9]
      · simp
      · simp [dispatch, hq, onTextureLoad, updateLoadingProgress, createGlobe, animate,
          totalTextures, Completion.world, h2, h7, h8, h9]
      · simp [dispatch, hq, onTextureLoad, updateLoadingProgress, createGlobe, animate,
          totalTextures, Completion.world, h2, h5, h7, h8, h9]
    · refine ⟨(dispatch M orbit .textureError w).world, ?_, ?_, ?_, ?_, ?_, ?_, ?_, ?_, ?_, rfl⟩
      all_goals
        simp [dispatch, hq, onTextureError, Completion.world, h2, h3, h4, h5, h6]

/-- C7 on the example page after the `load` event. -/
theorem texture_load_branches_witness :
    exampleInitialised.textureRequests ≠ [] ∧
    (∃ (w1 : World ℚ) (objs : List (SceneObject ℚ)),
      dispatch exampleMath exampleOrbit (.textureLoaded "earth") exampleInitialised
        = .normal w1 ∧
      w1.texturesLoaded = exampleInitialised.texturesLoaded + 1 ∧
      w1.texturesLoaded = totalTextures ∧
      totalTextures = 1 ∧
      loadingProgress w1.texturesLoaded = 100 ∧
      w1.loadingText = "Loading... " ++ toString (loadingProgress w1.texturesLoaded) ++ "%" ∧
      w1.loadingText = "Loading... 100%" ∧
      (1000, TimerTask.fadeLoading) ∈ w1.timers ∧
      w1.globe = some (.mesh 1 (some "earth")) ∧
      w1.scene = some objs ∧
      SceneObject.mesh 1 (some "earth") ∈ objs ∧
      w1.controls = some (newControls exampleInitialised.isAutoRotating) ∧
      w1.frameRequests = 1) ∧
    ∃ w2 : World ℚ,
      dispatch exampleMath exampleOrbit .textureError exampleInitialised = .normal w2 ∧
      w2.texturesLoaded = exampleInitialised.texturesLoaded ∧
      w2.globe = none ∧
      w2.controls = none ∧
      w2.scene = exampleInitialised.scene ∧
      w2.renderer = exampleInitialised.renderer ∧
      w2.frameRequests = 0 ∧
      w2.listeners = [] ∧
      w2.loadingText = textureErrorText ∧
      textureErrorText = "Error loading texture. Please refresh." :=
  have hp : exampleInitialised.textureRequests ≠ [] := by
    simp only [exampleInitialised, examplePage, textureRequests_after_load]
    exact List.cons_ne_nil _ _
  ⟨hp, texture_load_branches exampleMath exampleOrbit "earth" exampleInitialised
    (.next _ _ (.start _ _ _ _ _ _)) hp⟩

/-- C8: the star cloud is created once and never changed.  None of
`toggleAutoRotate`, `onWindowResize`, the zoom-in and zoom-out click handlers,
`animate` and the two texture callbacks changes the star sets in the scene or
draws from the random source, in any state; no event other than `load` does;
and after `load`, whatever events follow, the scene holds exactly the one
star set that `init` sampled. -/
theorem stars_created_once {α : Type} [LinearOrderedField α] (M : JSMath α)
    (orbit : Controls α → Camera α → Camera α) (texture : String) (w : World α) :
    (starSets (toggleAutoRotate w).world = starSets w ∧
      (toggleAutoRotate w).world.rng = w.rng) ∧
    (starSets (onWindowResize w).world = starSets w ∧
      (onWindowResize w).world.rng = w.rng) ∧
    (starSets (zoomIn w).world = starSets w ∧ (zoomIn w).world.rng = w.rng) ∧
    (starSets (zoomOut w).world = starSets w ∧ (zoomOut w).world.rng = w.rng) ∧
    (starSets (animate orbit w) = starSets w ∧ (animate orbit w).rng = w.rng) ∧
    (starSets (onTextureLoad orbit texture w).world = starSets w ∧
      (onTextureLoad orbit texture w).world.rng = w.rng) ∧
    (starSets (onTextureError w) = starSets w ∧ (onTextureError w).rng = w.rng) ∧
    (∀ e : Event α, e ≠ .load →
      starSets (step M orbit e w) = starSets w ∧ (step M orbit e w).rng = w.rng) ∧
    ∀ (draws : Nat → α) (iw ih dpr : α) (lt lbl : String) (es : List (Event α)),
      starSets (pageLoad draws iw ih dpr lt lbl) = [] ∧
      starSets (run M orbit es (step M orbit .load (pageLoad draws iw ih dpr lt lbl))) =
        [(sampleStars M ⟨draws, 0⟩).1] ∧
      (run M orbit es (step M orbit .load (pageLoad draws iw ih dpr lt lbl))).rng =
        (sampleStars M ⟨draws, 0⟩).2 := by
  refine ⟨?_, ?_, ?_, ?_, ?_, ?_, ?_, ?_, ?_⟩
  · exact ⟨(toggleAutoRotate_stars w).1, (toggleAutoRotate_stars w).2.1⟩
  · exact ⟨(onWindowResize_stars w).1, (onWindowResize_stars w).2.1⟩
  · exact ⟨(zoomIn_stars w).1, (zoomIn_stars w).2.1⟩
  · exact ⟨(zoomOut_stars w).1, (zoomOut_stars w).2.1⟩
  · exact ⟨(animate_stars orbit w).1, (animate_stars orbit w).2.1⟩
  · exact ⟨(onTextureLoad_stars orbit texture w).1, (onTextureLoad_stars orbit texture w).2.1⟩
  · exact ⟨(onTextureError_stars w).1, (onTextureError_stars w).2.1⟩
  · intro e he
    have h := step_stars M orbit e w (Or.inl he)
    exact ⟨h.1, h.2.1⟩
  · intro draws iw ih dpr lt lbl es
    have hf : (step M orbit .load (pageLoad draws iw ih dpr lt lbl)).loadFired = true := by
      rw [step_load_pageLoad]
    have h := run_stars M orbit es _ hf
    refine ⟨by simp [starSets, pageLoad], ?_, ?_⟩
    · rw [h.1, step_load_pageLoad]
      simp [starSets]
    · rw [h.2.1, step_load_pageLoad]

/-- C8 on the example page: an animation frame after loading. -/
theorem stars_created_once_witness :
    Event.frame ≠ (Event.load : Event ℚ) ∧
      starSets (step exampleMath exampleOrbit .frame exampleLoaded) = starSets exampleLoaded ∧
      (step exampleMath exampleOrbit .frame exampleLoaded).rng = exampleLoaded.rng :=
  ⟨fun h => Event.noConfusion h,
    (stars_created_once exampleMath exampleOrbit "earth" exampleLoaded).2.2.2.2.2.2.2.1
      .frame (fun h => Event.noConfusion h)⟩

/-- C10: zoom targets are clamped to the distance limits of the controls.  In
every reachable state with controls, `minDistance = 1.5` and `maxDistance = 4`;
for every `z` the zoom-in target is `max (z - 0.5) 1.5`, never below
`minDistance`, and the zoom-out target is `min (z + 0.5) 4`, never above
`maxDistance`; for `z` in `[1.5, 4]` both targets are in `[1.5, 4]`; and each
click handler requests a tween of the camera to its target. -/
theorem zoom_targets_clamped {α : Type} [LinearOrderedField α] (M : JSMath α)
    (orbit : Controls α → Camera α → Camera α) (w : World α) (c : Controls α)
    (hr : Reachable M orbit w) (hc : w.controls = some c) (z : α) :
    c.minDistance = 1.5 ∧ c.maxDistance = 4 ∧
    zoomInTarget z c = max (z - 0.5) 1.5 ∧
    c.minDistance ≤ zoomInTarget z c ∧
    zoomOutTarget z c = min (z + 0.5) 4 ∧
    zoomOutTarget z c ≤ c.maxDistance ∧
    (1.5 ≤ z → z ≤ 4 →
      (1.5 ≤ zoomInTarget z c ∧ zoomInTarget z c ≤ 4) ∧
      (1.5 ≤ zoomOutTarget z c ∧ zoomOutTarget z c ≤ 4)) ∧
    ∀ cam, w.camera = some cam →
      zoomIn w = .normal { w with
        tweens := w.tweens ++ [{ z := max (cam.position.z - 0.5) 1.5, duration := 0.5,
                                 ease := "power2.out" }] } ∧
      zoomOut w = .normal { w with
        tweens := w.tweens ++ [{ z := min (cam.position.z + 0.5) 4, duration := 0.5,
                                 ease := "power2.out" }] } := by
  obtain ⟨_, hmin, hmax⟩ := (Reachable.inv M orbit w hr).controlsOk c hc
  refine ⟨hmin, hmax, ?_, ?_, ?_, ?_, ?_, ?_⟩
  · simp only [zoomInTarget, hmin]
  · exact le_max_right _ _
  · simp only [zoomOutTarget, hmax]
  · exact min_le_right _ _
  · intro h1 h2
    simp only [zoomInTarget, zoomOutTarget, hmin, hmax]
    refine ⟨⟨le_max_right _ _, max_le ?_ ?_⟩, ⟨le_min ?_ ?_, min_le_right _ _⟩⟩
    · norm_num at h2 ⊢
      linarith
    · norm_num
    · norm_num at h1 ⊢
      linarith
    · norm_num
  · intro cam hcam
    simp only [zoomIn, zoomOut, hcam, hc, zoomInTarget, zoomOutTarget, hmin, hmax, and_self]

/-- C10 on the example page after loading, at `z = 2`. -/
theorem zoom_targets_clamped_witness :
    exampleLoaded.controls = some (newControls true) ∧
    (newControls true : Controls ℚ).minDistance = 1.5 ∧
    (newControls true : Controls ℚ).maxDistance = 4 ∧
    zoomInTarget (2 : ℚ) (newControls true) = max (2 - 0.5) 1.5 ∧
    (newControls true : Controls ℚ).minDistance ≤ zoomInTarget (2 : ℚ) (newControls true) ∧
    zoomOutTarget (2 : ℚ) (newControls true) = min (2 + 0.5) 4 ∧
    zoomOutTarget (2 : ℚ) (newControls true) ≤ (newControls true : Controls ℚ).maxDistance :=
  have hc : exampleLoaded.controls = some (newControls true) := by
    simp only [exampleLoaded, exampleInitialised, examplePage, controls_after_texture]
  have h := zoom_targets_clamped exampleMath exampleOrbit exampleLoaded (newControls true)
    (.next _ _ (.next _ _ (.start _ _ _ _ _ _))) hc 2
  ⟨hc, h.1, h.2.1, h.2.2.1, h.2.2.2.1, h.2.2.2.2.1, h.2.2.2.2.2.1⟩

end Globe
